import Mathlib

/-!
Verification of the debugger_v2 store schema
(`tensorboard/plugins/debugger_v2/tf_debugger_v2_plugin/store/debugger_types.ts`).

The TypeScript module is a pure data-shape declaration file: enums, interfaces
and type aliases describing the state of the Debugger V2 panel.  The shallow
embedding below renders each declaration as a Lean type, with the TypeScript
`number` type rendered as `Int`, `T | null` as `Option T`, arrays as `List`,
and string- or number-indexed object types as association lists.
-/

/-- Embedding of `DataLoadState`.  Modelled from the spec: the
`DataLoadState`/`LoadState` capability is re-exported from
`webapp/types/data`, which is outside the given material; the spec describes
it as an enumerated fetch status (in-progress / success / failure, plus the
initial state). -/
inductive DataLoadState
  | NOT_LOADED
  | LOADING
  | LOADED
  | FAILED
  deriving DecidableEq

/-- Embedding of `LoadState`.  Modelled from the spec: an external record
capability carrying the enumerated load status. -/
structure LoadState where
  state : DataLoadState
  deriving DecidableEq

/-- Embedding of `DEBUGGER_FEATURE_KEY` (line 20 of the source). -/
def DEBUGGER_FEATURE_KEY : String := "debugger"

/-- Embedding of the `TensorDebugMode` enum (lines 22-35 of the source). -/
inductive TensorDebugMode
  | UNSPECIFIED
  | NO_TENSOR
  | CURT_HEALTH
  | CONCISE_HEALTH
  | FULL_HEALTH
  | SHAPE
  | FULL_NUMERICS
  | FULL_TENSOR
  | REDUCE_INF_NAN_THREE_SLOTS
  deriving DecidableEq

/-- Numeric value assigned to each `TensorDebugMode` enumerant by the source
(lines 26-34). -/
def TensorDebugMode.value : TensorDebugMode → Int
  | .UNSPECIFIED => 0
  | .NO_TENSOR => 1
  | .CURT_HEALTH => 2
  | .CONCISE_HEALTH => 3
  | .FULL_HEALTH => 4
  | .SHAPE => 5
  | .FULL_NUMERICS => 6
  | .FULL_TENSOR => 7
  | .REDUCE_INF_NAN_THREE_SLOTS => 8

/-- Embedding of `DebuggerRunMetadata` (lines 37-40). -/
structure DebuggerRunMetadata where
  start_time : Int
  deriving DecidableEq

/-- Embedding of `DebuggerRunListing` (lines 42-44), a string-indexed object
type rendered as an association list. -/
abbrev DebuggerRunListing := List (String × DebuggerRunMetadata)

/-- Embedding of `StackFrame` (line 47): the tuple type
`[host_name, file_path, lineno, function]`. -/
abbrev StackFrame := String × String × Int × String

/-- Embedding of `StackFramesById` (line 49). -/
abbrev StackFramesById := List (String × StackFrame)

/-- Embedding of `ExecutionDigest` (lines 57-63). -/
structure ExecutionDigest where
  op_type : String
  output_tensor_device_ids : List String
  deriving DecidableEq

/-- Embedding of `Execution` (lines 71-85), which extends `ExecutionDigest`. -/
structure Execution extends ExecutionDigest where
  host_name : String
  stack_frame_ids : List String
  tensor_debug_mode : Int
  graph_id : Option String
  input_tensor_ids : List Int
  output_tensor_ids : List Int
  debug_tensor_values : Option (List (Option (List Int)))
  deriving DecidableEq

/-- Embedding of the `AlertType` enum (lines 87-91). -/
inductive AlertType
  | FUNCTION_RECOMPILE_ALERT
  | INF_NAN_ALERT
  | TENSOR_SHAPE_ALERT
  deriving DecidableEq

/-- String tag assigned to each `AlertType` variant by the source
(lines 88-90). -/
def AlertType.value : AlertType → String
  | .FUNCTION_RECOMPILE_ALERT => "FunctionRecompilesAlert"
  | .INF_NAN_ALERT => "InfNanAlert"
  | .TENSOR_SHAPE_ALERT => "TensorShapeAlert"

/-- Embedding of the base `Alert` interface (lines 93-96). -/
structure Alert where
  alert_type : AlertType
  deriving DecidableEq

/-- A TypeScript literal type: the subtype of `AlertType` containing exactly
the one variant `t`.  Used to embed the narrowed `alert_type` field of
`InfNanAlert` (line 99). -/
abbrev AlertTypeLiteral (t : AlertType) := {a : AlertType // a = t}

/-- Embedding of `InfNanAlert` (lines 98-119).  The `alert_type` field is
narrowed by the source to the literal type `AlertType.INF_NAN_ALERT`. -/
structure InfNanAlert where
  alert_type : AlertTypeLiteral AlertType.INF_NAN_ALERT
  op_type : String
  output_slot : Int
  size : Int
  num_neg_inf : Int
  num_pos_inf : Int
  num_nan : Int
  execution_index : Int
  graph_execution_trace_index : Option Int
  deriving DecidableEq

/-- Projection of an `InfNanAlert` to its base `Alert` record, embedding the
`extends Alert` clause at line 98. -/
def InfNanAlert.toAlert (a : InfNanAlert) : Alert :=
  { alert_type := a.alert_type.val }

/-- Embedding of `ExecutionDigestLoadState` (lines 121-130), which extends
`LoadState`; `pageLoadedSizes` is a number-indexed object type rendered as an
association list from page number to loaded size. -/
structure ExecutionDigestLoadState extends LoadState where
  pageLoadedSizes : List (Int × Int)
  numExecutions : Int
  deriving DecidableEq

/-- Embedding of `AlertsBreakdown` (line 136). -/
abbrev AlertsBreakdown := List (String × Int)

/-- Embedding of `AlertsByIndex` (line 141). -/
abbrev AlertsByIndex := List (Int × Alert)

/-- Embedding of `Alerts` (lines 143-166). -/
structure Alerts where
  alertsLoaded : LoadState
  numAlerts : Int
  alertsBreakdown : AlertsBreakdown
  alerts : List (String × AlertsByIndex)
  executionIndices : List (String × List Int)
  focusType : Option AlertType
  deriving DecidableEq

/-- Embedding of `Executions` (lines 168-202). -/
structure Executions where
  numExecutionsLoaded : LoadState
  executionDigestsLoaded : ExecutionDigestLoadState
  pageSize : Int
  displayCount : Int
  scrollBeginIndex : Int
  focusIndex : Option Int
  executionDigests : List (Int × ExecutionDigest)
  executionData : List (Int × Execution)
  deriving DecidableEq

/-- Embedding of `RunState` (lines 205-207). -/
structure RunState where
  executions : Executions
  deriving DecidableEq

/-- Embedding of `DebuggerState` (lines 209-225). -/
structure DebuggerState where
  runs : DebuggerRunListing
  runsLoaded : LoadState
  activeRunId : Option String
  alerts : Alerts
  executions : Executions
  stackFrames : StackFramesById
  deriving DecidableEq

/-- Embedding of `State` (lines 227-229): the record type
`{[DEBUGGER_FEATURE_KEY]: DebuggerState}` whose single property is the
debugger slice. -/
structure State where
  debugger : DebuggerState
  deriving DecidableEq

/-- Lookup of a property of a `State` value by key, embedding the computed
property name `[DEBUGGER_FEATURE_KEY]` at line 228: the only key that is
present is `DEBUGGER_FEATURE_KEY`, and it maps to the `DebuggerState`. -/
def State.get (s : State) (k : String) : Option DebuggerState :=
  if k = DEBUGGER_FEATURE_KEY then some s.debugger else none

/-- Claim C1: every enumerant of `TensorDebugMode` is assigned exactly its
documented fixed integer, in order, and no other enumerants exist. -/
theorem tensorDebugMode_enumerants :
    TensorDebugMode.value .UNSPECIFIED = 0 ∧
    TensorDebugMode.value .NO_TENSOR = 1 ∧
    TensorDebugMode.value .CURT_HEALTH = 2 ∧
    TensorDebugMode.value .CONCISE_HEALTH = 3 ∧
    TensorDebugMode.value .FULL_HEALTH = 4 ∧
    TensorDebugMode.value .SHAPE = 5 ∧
    TensorDebugMode.value .FULL_NUMERICS = 6 ∧
    TensorDebugMode.value .FULL_TENSOR = 7 ∧
    TensorDebugMode.value .REDUCE_INF_NAN_THREE_SLOTS = 8 ∧
    ∀ m : TensorDebugMode,
      m = .UNSPECIFIED ∨ m = .NO_TENSOR ∨ m = .CURT_HEALTH ∨
      m = .CONCISE_HEALTH ∨ m = .FULL_HEALTH ∨ m = .SHAPE ∨
      m = .FULL_NUMERICS ∨ m = .FULL_TENSOR ∨
      m = .REDUCE_INF_NAN_THREE_SLOTS := by
  refine ⟨rfl, rfl, rfl, rfl, rfl, rfl, rfl, rfl, rfl, ?_⟩
  intro m
  cases m <;> simp

/-- Claim C2: `AlertType` has exactly three variants whose string tags are the
documented literals, character for character. -/
theorem alertType_enumerants :
    AlertType.value .FUNCTION_RECOMPILE_ALERT = "FunctionRecompilesAlert" ∧
    AlertType.value .INF_NAN_ALERT = "InfNanAlert" ∧
    AlertType.value .TENSOR_SHAPE_ALERT = "TensorShapeAlert" ∧
    ∀ a : AlertType,
      a = .FUNCTION_RECOMPILE_ALERT ∨ a = .INF_NAN_ALERT ∨
      a = .TENSOR_SHAPE_ALERT := by
  refine ⟨rfl, rfl, rfl, ?_⟩
  intro a
  cases a <;> simp

/-- Claim C3: `DEBUGGER_FEATURE_KEY` equals the string `"debugger"`, and every
`State` value holds its `DebuggerState` exactly under that key: lookup at the
key yields the `DebuggerState`, and lookup at any key yields a value exactly
when the key is `DEBUGGER_FEATURE_KEY` and the value is the `DebuggerState`. -/
theorem state_feature_key :
    DEBUGGER_FEATURE_KEY = "debugger" ∧
    (∀ s : State, s.get DEBUGGER_FEATURE_KEY = some s.debugger) ∧
    ∀ (s : State) (k : String) (d : DebuggerState),
      s.get k = some d ↔ (k = DEBUGGER_FEATURE_KEY ∧ d = s.debugger) := by
  refine ⟨rfl, fun s => by simp [State.get], ?_⟩
  intro s k d
  unfold State.get
  split
  · simp_all [eq_comm]
  · simp_all

/-- Origin of an `InfNanAlert`.  Modelled from the spec: alerts are supplied
by an upstream data source absent from the given material; the source comment
at lines 115-117 states the trace index is a non-negative integer for alerts
due to intra-graph execution and null for alerts due to eager execution. -/
inductive InfNanAlertOrigin
  | eager
  | intraGraph (traceIndex : Nat)
  deriving DecidableEq

/-- Construction of an `InfNanAlert`.  Modelled from the spec: the
constructing code lives outside the given material; per the source comment at
lines 115-117, an alert from eager execution carries
`graph_execution_trace_index = null` and one from intra-graph execution
carries the non-negative trace index. -/
def mkInfNanAlert (op_type : String)
    (output_slot size num_neg_inf num_pos_inf num_nan execution_index : Int)
    (origin : InfNanAlertOrigin) : InfNanAlert :=
  { alert_type := ⟨AlertType.INF_NAN_ALERT, rfl⟩
    op_type := op_type
    output_slot := output_slot
    size := size
    num_neg_inf := num_neg_inf
    num_pos_inf := num_pos_inf
    num_nan := num_nan
    execution_index := execution_index
    graph_execution_trace_index :=
      match origin with
      | .eager => none
      | .intraGraph i => some (i : Int) }

/-- Claim C4: an `InfNanAlert` built from an eager execution carries
`graph_execution_trace_index = none`; one built from an intra-graph execution
carries the non-negative trace index; and the field is absent exactly for the
eager-execution alerts. -/
theorem infNanAlert_trace_index :
    ∀ (o : String) (s z nn np na e : Int),
      (mkInfNanAlert o s z nn np na e .eager).graph_execution_trace_index
        = none ∧
      (∀ i : Nat,
        (mkInfNanAlert o s z nn np na e
            (.intraGraph i)).graph_execution_trace_index = some (i : Int) ∧
        0 ≤ (i : Int)) ∧
      ∀ origin : InfNanAlertOrigin,
        (mkInfNanAlert o s z nn np na e
            origin).graph_execution_trace_index = none ↔ origin = .eager := by
  intro o s z nn np na e
  refine ⟨rfl, fun i => ⟨rfl, Int.ofNat_nonneg i⟩, ?_⟩
  intro origin
  cases origin <;> simp [mkInfNanAlert]

/-- Well-formedness of the `pageLoadedSizes` map of an
`ExecutionDigestLoadState` relative to the configured page size, embedding the
source comment at lines 122-124: each page recorded there has been loaded
either in full, in which case the value is `pageSize`, or partially, in which
case the value is an integer `< pageSize`. -/
def ExecutionDigestLoadState.pagesWellFormed
    (s : ExecutionDigestLoadState) (pageSize : Int) : Prop :=
  ∀ pv ∈ s.pageLoadedSizes, pv.2 = pageSize ∨ pv.2 < pageSize

/-- Claim C5: for every `Executions` value whose digest-load bookkeeping
satisfies the documented full-or-partial discipline, every loaded-size entry
of `pageLoadedSizes` is at most the configured `pageSize`. -/
theorem pageLoadedSizes_le_pageSize :
    ∀ e : Executions,
      e.executionDigestsLoaded.pagesWellFormed e.pageSize →
      ∀ p v : Int, (p, v) ∈ e.executionDigestsLoaded.pageLoadedSizes →
        v ≤ e.pageSize := by
  intro e h p v hmem
  rcases h (p, v) hmem with h1 | h2
  · exact le_of_eq h1
  · exact le_of_lt h2

/-- Concrete `LoadState` used to instantiate theorems with hypotheses. -/
def sampleLoadState : LoadState := { state := .LOADED }

/-- Concrete `Executions` value with one fully and one partially loaded page,
used to instantiate theorems with hypotheses. -/
def sampleExecutions : Executions :=
  { numExecutionsLoaded := sampleLoadState
    executionDigestsLoaded :=
      { state := .LOADED
        pageLoadedSizes := [(0, 1000), (1, 555)]
        numExecutions := 1555 }
    pageSize := 1000
    displayCount := 50
    scrollBeginIndex := 0
    focusIndex := none
    executionDigests := []
    executionData := [] }

/-- Witness for claim C5: the well-formedness hypothesis holds of the sample
`Executions` value, and the theorem yields the bound for its partially loaded
page. -/
theorem pageLoadedSizes_le_pageSize_witness :
    sampleExecutions.executionDigestsLoaded.pagesWellFormed
      sampleExecutions.pageSize ∧
    (555 : Int) ≤ sampleExecutions.pageSize := by
  have hwf : sampleExecutions.executionDigestsLoaded.pagesWellFormed
      sampleExecutions.pageSize := by
    intro pv hmem
    simp only [sampleExecutions, ExecutionDigestLoadState.pagesWellFormed,
      List.mem_cons, List.mem_singleton] at hmem ⊢
    rcases hmem with h | h | h
    · subst h; left; rfl
    · subst h; right; decide
    · cases h
  refine ⟨hwf, ?_⟩
  exact pageLoadedSizes_le_pageSize sampleExecutions hwf 1 555 (by
    simp [sampleExecutions])

/-- Claim C6: every `Execution` projects onto a well-formed `ExecutionDigest`
with the same `op_type` and `output_tensor_device_ids`, and every
`ExecutionDigest` arises as such a projection. -/
theorem execution_extends_digest :
    (∀ e : Execution,
      e.toExecutionDigest.op_type = e.op_type ∧
      e.toExecutionDigest.output_tensor_device_ids
        = e.output_tensor_device_ids) ∧
    ∀ d : ExecutionDigest, ∃ e : Execution, e.toExecutionDigest = d := by
  refine ⟨fun e => ⟨rfl, rfl⟩, ?_⟩
  intro d
  exact ⟨{ toExecutionDigest := d
           host_name := ""
           stack_frame_ids := []
           tensor_debug_mode := 0
           graph_id := none
           input_tensor_ids := []
           output_tensor_ids := []
           debug_tensor_values := none }, rfl⟩

/-- Well-formedness of the `tensor_debug_mode` field of an `Execution`.
Modelled from the spec: the source declares the field as a bare `number`
(line 76), and the upstream code that populates it is outside the given
material; the spec states the field holds one of the `TensorDebugMode`
enumerants. -/
def Execution.tensorDebugModeWellFormed (e : Execution) : Prop :=
  ∃ m : TensorDebugMode, m.value = e.tensor_debug_mode

/-- Claim C7: an `Execution` carries one of the nine `TensorDebugMode`
enumerant values exactly when its `tensor_debug_mode` is an integer between 0
and 8 inclusive. -/
theorem execution_tensor_debug_mode_range :
    ∀ e : Execution,
      e.tensorDebugModeWellFormed ↔
        0 ≤ e.tensor_debug_mode ∧ e.tensor_debug_mode ≤ 8 := by
  intro e
  constructor
  · rintro ⟨m, hm⟩
    cases m <;> simp [TensorDebugMode.value] at hm <;> omega
  · rintro ⟨h0, h8⟩
    unfold Execution.tensorDebugModeWellFormed
    have h : e.tensor_debug_mode = 0 ∨ e.tensor_debug_mode = 1 ∨
        e.tensor_debug_mode = 2 ∨ e.tensor_debug_mode = 3 ∨
        e.tensor_debug_mode = 4 ∨ e.tensor_debug_mode = 5 ∨
        e.tensor_debug_mode = 6 ∨ e.tensor_debug_mode = 7 ∨
        e.tensor_debug_mode = 8 := by omega
    rcases h with h | h | h | h | h | h | h | h | h
    · exact ⟨.UNSPECIFIED, h.symm⟩
    · exact ⟨.NO_TENSOR, h.symm⟩
    · exact ⟨.CURT_HEALTH, h.symm⟩
    · exact ⟨.CONCISE_HEALTH, h.symm⟩
    · exact ⟨.FULL_HEALTH, h.symm⟩
    · exact ⟨.SHAPE, h.symm⟩
    · exact ⟨.FULL_NUMERICS, h.symm⟩
    · exact ⟨.FULL_TENSOR, h.symm⟩
    · exact ⟨.REDUCE_INF_NAN_THREE_SLOTS, h.symm⟩

/-- Kinds of components a `StackFrame` tuple can hold: the embedding of the
TypeScript primitive types `string` and `number` appearing in the tuple type
at line 47. -/
inductive StackFrameComponent
  | str (s : String)
  | num (n : Int)
  deriving DecidableEq

/-- The components of a `StackFrame`, in order, per the source comment at
line 46: `[host_name, file_path, lineno, function]`. -/
def StackFrame.components (f : StackFrame) : List StackFrameComponent :=
  [.str f.1, .str f.2.1, .num f.2.2.1, .str f.2.2.2]

/-- Claim C8: every `StackFrame` has exactly four components which are, in
order, a string host name, a string file path, a numeric line number and a
string function name; and a `StackFrame` is determined by its components. -/
theorem stackFrame_components_shape :
    (∀ f : StackFrame,
      f.components.length = 4 ∧
      f.components[0]? = some (.str f.1) ∧
      f.components[1]? = some (.str f.2.1) ∧
      f.components[2]? = some (.num f.2.2.1) ∧
      f.components[3]? = some (.str f.2.2.2)) ∧
    ∀ f g : StackFrame, f.components = g.components → f = g := by
  refine ⟨fun f => ⟨rfl, rfl, rfl, rfl, rfl⟩, ?_⟩
  rintro ⟨a, b, n, c⟩ ⟨a2, b2, n2, c2⟩ h
  simp only [StackFrame.components, List.cons.injEq,
    StackFrameComponent.str.injEq, StackFrameComponent.num.injEq,
    and_true] at h
  obtain ⟨h1, h2, h3, h4⟩ := h
  simp [h1, h2, h3, h4]

/-- Witness for claim C8: applying the theorem to two concrete equal-component
stack frames. -/
theorem stackFrame_components_shape_witness :
    StackFrame.components ("host", "a.py", 7, "fn")
      = StackFrame.components ("host", "a.py", 7, "fn") ∧
    (("host", "a.py", 7, "fn") : StackFrame) = ("host", "a.py", 7, "fn") := by
  refine ⟨rfl, ?_⟩
  exact stackFrame_components_shape.2 ("host", "a.py", 7, "fn")
    ("host", "a.py", 7, "fn") rfl

/-- Claim C10: the `alert_type` discriminant of every `InfNanAlert` is exactly
`AlertType.INF_NAN_ALERT`, whose string tag is `"InfNanAlert"`, both in the
narrowed field and in the projection to the base `Alert` record. -/
theorem infNanAlert_discriminant :
    ∀ a : InfNanAlert,
      a.alert_type.val = AlertType.INF_NAN_ALERT ∧
      a.toAlert.alert_type = AlertType.INF_NAN_ALERT ∧
      AlertType.value a.alert_type.val = "InfNanAlert" := by
  intro a
  refine ⟨a.alert_type.property, a.alert_type.property, ?_⟩
  rw [a.alert_type.property]
  rfl

/-- A JSON-like tree of values.  Modelled from the spec: the spec requires a
round-trip property for serializing the record shapes, but the serializer
itself is outside the given material; this tree is its target. -/
inductive JsonValue
  | null
  | str (s : String)
  | num (n : Int)
  | arr (items : List JsonValue)
  | obj (fields : List (String × JsonValue))

/-- Modelled from the spec: serialization of a list, elementwise. -/
def encList (e : α → JsonValue) (xs : List α) : JsonValue :=
  .arr (xs.map e)

/-- Modelled from the spec: serialization of a nullable value. -/
def encNullable (e : α → JsonValue) : Option α → JsonValue
  | none => .null
  | some a => e a

/-- Modelled from the spec: serialization of a string-indexed object type. -/
def encStrMap (e : α → JsonValue) (m : List (String × α)) : JsonValue :=
  .obj (m.map fun kv => (kv.1, e kv.2))

/-- Modelled from the spec: serialization of a number-indexed object type, as
an array of key-value entries. -/
def encIntMap (e : α → JsonValue) (m : List (Int × α)) : JsonValue :=
  .arr (m.map fun kv => .arr [.num kv.1, e kv.2])

/-- Modelled from the spec: deserialization of a string. -/
def decStr : JsonValue → Option String
  | .str s => some s
  | _ => none

/-- Modelled from the spec: deserialization of a number. -/
def decNum : JsonValue → Option Int
  | .num n => some n
  | _ => none

/-- Modelled from the spec: elementwise deserialization of a list of trees,
failing if any element fails. -/
def decEach (d : JsonValue → Option α) : List JsonValue → Option (List α)
  | [] => some []
  | j :: js =>
    match d j, decEach d js with
    | some a, some as => some (a :: as)
    | _, _ => none

/-- Modelled from the spec: deserialization of a list. -/
def decList (d : JsonValue → Option α) : JsonValue → Option (List α)
  | .arr items => decEach d items
  | _ => none

/-- Modelled from the spec: deserialization of a nullable value. -/
def decNullable (d : JsonValue → Option α) : JsonValue → Option (Option α)
  | .null => some none
  | j => (d j).map some

/-- Modelled from the spec: valuewise deserialization of the fields of an
object, failing if any value fails. -/
def decEachPair (d : JsonValue → Option α) :
    List (String × JsonValue) → Option (List (String × α))
  | [] => some []
  | (k, j) :: rest =>
    match d j, decEachPair d rest with
    | some a, some as => some ((k, a) :: as)
    | _, _ => none

/-- Modelled from the spec: deserialization of a string-indexed object type. -/
def decStrMap (d : JsonValue → Option α) : JsonValue → Option (List (String × α))
  | .obj fields => decEachPair d fields
  | _ => none

/-- Modelled from the spec: deserialization of one entry of a number-indexed
object type. -/
def decIntEntry (d : JsonValue → Option α) : JsonValue → Option (Int × α)
  | .arr [.num k, j] => (d j).map fun a => (k, a)
  | _ => none

/-- Modelled from the spec: deserialization of a number-indexed object type. -/
def decIntMap (d : JsonValue → Option α) : JsonValue → Option (List (Int × α))
  | .arr items => decEach (decIntEntry d) items
  | _ => none

/-- Elementwise deserialization undoes elementwise serialization. -/
theorem rt_each (d : JsonValue → Option α) (e : α → JsonValue)
    (h : ∀ a, d (e a) = some a) :
    ∀ xs : List α, decEach d (xs.map e) = some xs
  | [] => rfl
  | x :: xs => by
    rw [List.map_cons, decEach, h x, rt_each d e h xs]

/-- List deserialization undoes list serialization. -/
theorem rt_list (d : JsonValue → Option α) (e : α → JsonValue)
    (h : ∀ a, d (e a) = some a) (xs : List α) :
    decList d (encList e xs) = some xs := by
  rw [encList, decList, rt_each d e h xs]

/-- On any tree other than the null tree, `decNullable` runs the inner
deserializer. -/
theorem decNullable_not_null (d : JsonValue → Option α) :
    ∀ j : JsonValue, j ≠ .null → decNullable d j = (d j).map some
  | .null, h => absurd rfl h
  | .str _, _ => rfl
  | .num _, _ => rfl
  | .arr _, _ => rfl
  | .obj _, _ => rfl

/-- Nullable deserialization undoes nullable serialization, provided the
inner serializer never produces the null tree. -/
theorem rt_nullable (d : JsonValue → Option α) (e : α → JsonValue)
    (h : ∀ a, d (e a) = some a) (hnn : ∀ a, e a ≠ .null) :
    ∀ o : Option α, decNullable d (encNullable e o) = some o
  | none => rfl
  | some a => by
    rw [encNullable, decNullable_not_null d (e a) (hnn a), h a]
    rfl

/-- Valuewise object deserialization undoes valuewise object serialization. -/
theorem rt_eachPair (d : JsonValue → Option α) (e : α → JsonValue)
    (h : ∀ a, d (e a) = some a) :
    ∀ m : List (String × α),
      decEachPair d (m.map fun kv => (kv.1, e kv.2)) = some m
  | [] => rfl
  | (k, v) :: rest => by
    rw [List.map_cons, decEachPair, h v, rt_eachPair d e h rest]

/-- String-map deserialization undoes string-map serialization. -/
theorem rt_strMap (d : JsonValue → Option α) (e : α → JsonValue)
    (h : ∀ a, d (e a) = some a) (m : List (String × α)) :
    decStrMap d (encStrMap e m) = some m := by
  rw [encStrMap, decStrMap, rt_eachPair d e h m]

/-- Entry deserialization undoes entry serialization for number-keyed maps. -/
theorem rt_intEntry (d : JsonValue → Option α) (e : α → JsonValue)
    (h : ∀ a, d (e a) = some a) (kv : Int × α) :
    decIntEntry d (.arr [.num kv.1, e kv.2]) = some kv := by
  rw [decIntEntry, h kv.2]
  rfl

/-- Number-map deserialization undoes number-map serialization. -/
theorem rt_intMap (d : JsonValue → Option α) (e : α → JsonValue)
    (h : ∀ a, d (e a) = some a) (m : List (Int × α)) :
    decIntMap d (encIntMap e m) = some m := by
  rw [encIntMap, decIntMap]
  exact rt_each (decIntEntry d) _ (rt_intEntry d e h) m

/-- The string serializer never produces the null tree. -/
theorem str_ne_null (s : String) : JsonValue.str s ≠ .null := fun h =>
  JsonValue.noConfusion h

/-- The number serializer never produces the null tree. -/
theorem num_ne_null (n : Int) : JsonValue.num n ≠ .null := fun h =>
  JsonValue.noConfusion h

/-- The list serializer never produces the null tree. -/
theorem encList_ne_null (e : α → JsonValue) (xs : List α) :
    encList e xs ≠ .null := by
  rw [encList]
  exact fun h => JsonValue.noConfusion h

/-- String deserialization undoes string serialization. -/
theorem rt_str (s : String) : decStr (.str s) = some s := rfl

/-- Number deserialization undoes number serialization. -/
theorem rt_num (n : Int) : decNum (.num n) = some n := rfl

/-- Roundtrip for lists of strings. -/
theorem rt_list_str (xs : List String) :
    decList decStr (encList .str xs) = some xs :=
  rt_list decStr JsonValue.str (fun _ => rfl) xs

/-- Roundtrip for lists of numbers. -/
theorem rt_list_num (xs : List Int) :
    decList decNum (encList .num xs) = some xs :=
  rt_list decNum JsonValue.num (fun _ => rfl) xs

/-- Roundtrip for nullable strings. -/
theorem rt_nullable_str (o : Option String) :
    decNullable decStr (encNullable .str o) = some o :=
  rt_nullable decStr JsonValue.str (fun _ => rfl) str_ne_null o

/-- Roundtrip for nullable numbers. -/
theorem rt_nullable_num (o : Option Int) :
    decNullable decNum (encNullable .num o) = some o :=
  rt_nullable decNum JsonValue.num (fun _ => rfl) num_ne_null o

/-- Roundtrip for the `debug_tensor_values` shape
`Array<number[] | null> | null`. -/
theorem rt_debug_tensor_values (o : Option (List (Option (List Int)))) :
    decNullable (decList (decNullable (decList decNum)))
      (encNullable (encList (encNullable (encList .num))) o) = some o :=
  rt_nullable (decList (decNullable (decList decNum)))
    (encList (encNullable (encList JsonValue.num)))
    (rt_list (decNullable (decList decNum)) (encNullable (encList JsonValue.num))
      (rt_nullable (decList decNum) (encList JsonValue.num) rt_list_num
        (encList_ne_null JsonValue.num)))
    (encList_ne_null (encNullable (encList JsonValue.num))) o

/-- Modelled from the spec: serialization of `DataLoadState` by its name. -/
def encDataLoadState : DataLoadState → JsonValue
  | .NOT_LOADED => .str "NOT_LOADED"
  | .LOADING => .str "LOADING"
  | .LOADED => .str "LOADED"
  | .FAILED => .str "FAILED"

/-- Modelled from the spec: deserialization of `DataLoadState`. -/
def decDataLoadState : JsonValue → Option DataLoadState
  | .str "NOT_LOADED" => some .NOT_LOADED
  | .str "LOADING" => some .LOADING
  | .str "LOADED" => some .LOADED
  | .str "FAILED" => some .FAILED
  | _ => none

/-- Roundtrip for `DataLoadState`. -/
theorem rt_dataLoadState : ∀ s, decDataLoadState (encDataLoadState s) = some s := by
  intro s
  cases s <;> rfl

/-- Modelled from the spec: serialization of a `LoadState` record. -/
def encLoadState (l : LoadState) : JsonValue :=
  .obj [("state", encDataLoadState l.state)]

/-- Modelled from the spec: deserialization of a `LoadState` record. -/
def decLoadState : JsonValue → Option LoadState
  | .obj [("state", j)] => (decDataLoadState j).map LoadState.mk
  | _ => none

/-- Roundtrip for `LoadState`. -/
theorem rt_loadState : ∀ l, decLoadState (encLoadState l) = some l := by
  rintro ⟨s⟩
  simp [encLoadState, decLoadState, rt_dataLoadState]

/-- Modelled from the spec: serialization of `DebuggerRunMetadata`. -/
def encDebuggerRunMetadata (m : DebuggerRunMetadata) : JsonValue :=
  .obj [("start_time", .num m.start_time)]

/-- Modelled from the spec: deserialization of `DebuggerRunMetadata`. -/
def decDebuggerRunMetadata : JsonValue → Option DebuggerRunMetadata
  | .obj [("start_time", j)] => (decNum j).map DebuggerRunMetadata.mk
  | _ => none

/-- Roundtrip for `DebuggerRunMetadata`. -/
theorem rt_runMetadata :
    ∀ m, decDebuggerRunMetadata (encDebuggerRunMetadata m) = some m := by
  rintro ⟨t⟩
  rfl

/-- Modelled from the spec: serialization of `DebuggerRunListing`. -/
def encDebuggerRunListing : DebuggerRunListing → JsonValue :=
  encStrMap encDebuggerRunMetadata

/-- Modelled from the spec: deserialization of `DebuggerRunListing`. -/
def decDebuggerRunListing : JsonValue → Option DebuggerRunListing :=
  decStrMap decDebuggerRunMetadata

/-- Roundtrip for `DebuggerRunListing`. -/
theorem rt_runListing :
    ∀ m, decDebuggerRunListing (encDebuggerRunListing m) = some m := by
  intro m
  exact rt_strMap _ _ rt_runMetadata m

/-- Modelled from the spec: serialization of a `StackFrame` tuple, in the
documented component order. -/
def encStackFrame (f : StackFrame) : JsonValue :=
  .arr [.str f.1, .str f.2.1, .num f.2.2.1, .str f.2.2.2]

/-- Modelled from the spec: deserialization of a `StackFrame` tuple. -/
def decStackFrame : JsonValue → Option StackFrame
  | .arr [j1, j2, j3, j4] =>
    (decStr j1).bind fun a =>
    (decStr j2).bind fun b =>
    (decNum j3).bind fun n =>
    (decStr j4).map fun c => (a, b, n, c)
  | _ => none

/-- Roundtrip for `StackFrame`. -/
theorem rt_stackFrame : ∀ f, decStackFrame (encStackFrame f) = some f := by
  rintro ⟨a, b, n, c⟩
  rfl

/-- Modelled from the spec: serialization of `StackFramesById`. -/
def encStackFramesById : StackFramesById → JsonValue :=
  encStrMap encStackFrame

/-- Modelled from the spec: deserialization of `StackFramesById`. -/
def decStackFramesById : JsonValue → Option StackFramesById :=
  decStrMap decStackFrame

/-- Roundtrip for `StackFramesById`. -/
theorem rt_stackFramesById :
    ∀ m, decStackFramesById (encStackFramesById m) = some m := by
  intro m
  exact rt_strMap _ _ rt_stackFrame m

/-- Modelled from the spec: serialization of `ExecutionDigest`. -/
def encExecutionDigest (d : ExecutionDigest) : JsonValue :=
  .obj [("op_type", .str d.op_type),
        ("output_tensor_device_ids",
          encList .str d.output_tensor_device_ids)]

/-- Modelled from the spec: deserialization of `ExecutionDigest`. -/
def decExecutionDigest : JsonValue → Option ExecutionDigest
  | .obj [("op_type", j1), ("output_tensor_device_ids", j2)] =>
    (decStr j1).bind fun o =>
    (decList decStr j2).map fun ids => ⟨o, ids⟩
  | _ => none

/-- Roundtrip for `ExecutionDigest`. -/
theorem rt_executionDigest :
    ∀ d, decExecutionDigest (encExecutionDigest d) = some d := by
  rintro ⟨o, ids⟩
  simp [encExecutionDigest, decExecutionDigest, rt_str, rt_list_str]

/-- Modelled from the spec: serialization of `Execution`, digest fields
first. -/
def encExecution (e : Execution) : JsonValue :=
  .obj [("op_type", .str e.op_type),
        ("output_tensor_device_ids", encList .str e.output_tensor_device_ids),
        ("host_name", .str e.host_name),
        ("stack_frame_ids", encList .str e.stack_frame_ids),
        ("tensor_debug_mode", .num e.tensor_debug_mode),
        ("graph_id", encNullable .str e.graph_id),
        ("input_tensor_ids", encList .num e.input_tensor_ids),
        ("output_tensor_ids", encList .num e.output_tensor_ids),
        ("debug_tensor_values",
          encNullable (encList (encNullable (encList .num)))
            e.debug_tensor_values)]

/-- Modelled from the spec: deserialization of `Execution`. -/
def decExecution : JsonValue → Option Execution
  | .obj [("op_type", j1), ("output_tensor_device_ids", j2),
          ("host_name", j3), ("stack_frame_ids", j4),
          ("tensor_debug_mode", j5), ("graph_id", j6),
          ("input_tensor_ids", j7), ("output_tensor_ids", j8),
          ("debug_tensor_values", j9)] =>
    (decStr j1).bind fun o =>
    (decList decStr j2).bind fun ids =>
    (decStr j3).bind fun hn =>
    (decList decStr j4).bind fun sf =>
    (decNum j5).bind fun tdm =>
    (decNullable decStr j6).bind fun g =>
    (decList decNum j7).bind fun it =>
    (decList decNum j8).bind fun ot =>
    (decNullable (decList (decNullable (decList decNum))) j9).map fun dv =>
      ⟨⟨o, ids⟩, hn, sf, tdm, g, it, ot, dv⟩
  | _ => none

/-- Roundtrip for `Execution`. -/
theorem rt_execution : ∀ e, decExecution (encExecution e) = some e := by
  rintro ⟨⟨o, ids⟩, hn, sf, tdm, g, it, ot, dv⟩
  simp [encExecution, decExecution, rt_str, rt_num, rt_list_str, rt_list_num,
    rt_nullable_str, rt_debug_tensor_values]

/-- Modelled from the spec: serialization of `AlertType` by its wire tag. -/
def encAlertType (t : AlertType) : JsonValue :=
  .str t.value

/-- Modelled from the spec: deserialization of `AlertType` from its wire
tag. -/
def decAlertType : JsonValue → Option AlertType
  | .str "FunctionRecompilesAlert" => some .FUNCTION_RECOMPILE_ALERT
  | .str "InfNanAlert" => some .INF_NAN_ALERT
  | .str "TensorShapeAlert" => some .TENSOR_SHAPE_ALERT
  | _ => none

/-- Roundtrip for `AlertType`. -/
theorem rt_alertType : ∀ t, decAlertType (encAlertType t) = some t := by
  intro t
  cases t <;> rfl

/-- The `AlertType` serializer never produces the null tree. -/
theorem encAlertType_ne_null (t : AlertType) : encAlertType t ≠ .null := by
  cases t <;> exact fun h => JsonValue.noConfusion h

/-- Modelled from the spec: serialization of a base `Alert` record. -/
def encAlert (a : Alert) : JsonValue :=
  .obj [("alert_type", encAlertType a.alert_type)]

/-- Modelled from the spec: deserialization of a base `Alert` record. -/
def decAlert : JsonValue → Option Alert
  | .obj [("alert_type", j)] => (decAlertType j).map Alert.mk
  | _ => none

/-- Roundtrip for `Alert`. -/
theorem rt_alert : ∀ a, decAlert (encAlert a) = some a := by
  rintro ⟨t⟩
  simp [encAlert, decAlert, rt_alertType]

/-- Modelled from the spec: serialization of `InfNanAlert`. -/
def encInfNanAlert (a : InfNanAlert) : JsonValue :=
  .obj [("alert_type", encAlertType a.alert_type.val),
        ("op_type", .str a.op_type),
        ("output_slot", .num a.output_slot),
        ("size", .num a.size),
        ("num_neg_inf", .num a.num_neg_inf),
        ("num_pos_inf", .num a.num_pos_inf),
        ("num_nan", .num a.num_nan),
        ("execution_index", .num a.execution_index),
        ("graph_execution_trace_index",
          encNullable .num a.graph_execution_trace_index)]

/-- Modelled from the spec: deserialization of `InfNanAlert`; the
discriminant must be the `InfNanAlert` wire tag. -/
def decInfNanAlert : JsonValue → Option InfNanAlert
  | .obj [("alert_type", .str "InfNanAlert"),
          ("op_type", j2), ("output_slot", j3), ("size", j4),
          ("num_neg_inf", j5), ("num_pos_inf", j6), ("num_nan", j7),
          ("execution_index", j8), ("graph_execution_trace_index", j9)] =>
    (decStr j2).bind fun o =>
    (decNum j3).bind fun slot =>
    (decNum j4).bind fun sz =>
    (decNum j5).bind fun nn =>
    (decNum j6).bind fun np =>
    (decNum j7).bind fun na =>
    (decNum j8).bind fun ei =>
    (decNullable decNum j9).map fun gi =>
      ⟨⟨.INF_NAN_ALERT, rfl⟩, o, slot, sz, nn, np, na, ei, gi⟩
  | _ => none

set_option maxHeartbeats 1600000 in
/-- Roundtrip for `InfNanAlert`. -/
theorem rt_infNanAlert : ∀ a, decInfNanAlert (encInfNanAlert a) = some a := by
  rintro ⟨⟨v, hv⟩, o, slot, sz, nn, np, na, ei, gi⟩
  subst hv
  simp [encInfNanAlert, decInfNanAlert, encAlertType, AlertType.value,
    rt_str, rt_num, rt_nullable_num]

/-- Roundtrip for number-keyed maps of numbers. -/
theorem rt_intMap_num (m : List (Int × Int)) :
    decIntMap decNum (encIntMap .num m) = some m :=
  rt_intMap decNum JsonValue.num (fun _ => rfl) m

/-- Modelled from the spec: serialization of `ExecutionDigestLoadState`. -/
def encExecutionDigestLoadState (s : ExecutionDigestLoadState) : JsonValue :=
  .obj [("state", encDataLoadState s.state),
        ("pageLoadedSizes", encIntMap .num s.pageLoadedSizes),
        ("numExecutions", .num s.numExecutions)]

/-- Modelled from the spec: deserialization of `ExecutionDigestLoadState`. -/
def decExecutionDigestLoadState : JsonValue → Option ExecutionDigestLoadState
  | .obj [("state", j1), ("pageLoadedSizes", j2), ("numExecutions", j3)] =>
    (decDataLoadState j1).bind fun st =>
    (decIntMap decNum j2).bind fun pls =>
    (decNum j3).map fun n => ⟨⟨st⟩, pls, n⟩
  | _ => none

/-- Roundtrip for `ExecutionDigestLoadState`. -/
theorem rt_executionDigestLoadState :
    ∀ s, decExecutionDigestLoadState (encExecutionDigestLoadState s) = some s := by
  rintro ⟨⟨st⟩, pls, n⟩
  simp [encExecutionDigestLoadState, decExecutionDigestLoadState,
    rt_dataLoadState, rt_intMap_num, rt_num]

/-- Modelled from the spec: serialization of `AlertsBreakdown`. -/
def encAlertsBreakdown : AlertsBreakdown → JsonValue :=
  encStrMap JsonValue.num

/-- Modelled from the spec: deserialization of `AlertsBreakdown`. -/
def decAlertsBreakdown : JsonValue → Option AlertsBreakdown :=
  decStrMap decNum

/-- Roundtrip for `AlertsBreakdown`. -/
theorem rt_alertsBreakdown :
    ∀ m, decAlertsBreakdown (encAlertsBreakdown m) = some m := by
  intro m
  exact rt_strMap decNum JsonValue.num (fun _ => rfl) m

/-- Modelled from the spec: serialization of `AlertsByIndex`. -/
def encAlertsByIndex : AlertsByIndex → JsonValue :=
  encIntMap encAlert

/-- Modelled from the spec: deserialization of `AlertsByIndex`. -/
def decAlertsByIndex : JsonValue → Option AlertsByIndex :=
  decIntMap decAlert

/-- Roundtrip for `AlertsByIndex`. -/
theorem rt_alertsByIndex :
    ∀ m, decAlertsByIndex (encAlertsByIndex m) = some m := by
  intro m
  exact rt_intMap decAlert encAlert rt_alert m

/-- Roundtrip for the by-type map of loaded alerts. -/
theorem rt_alertsMap (m : List (String × AlertsByIndex)) :
    decStrMap decAlertsByIndex (encStrMap encAlertsByIndex m) = some m :=
  rt_strMap decAlertsByIndex encAlertsByIndex rt_alertsByIndex m

/-- Roundtrip for the by-type map of execution indices. -/
theorem rt_executionIndicesMap (m : List (String × List Int)) :
    decStrMap (decList decNum) (encStrMap (encList .num) m) = some m :=
  rt_strMap (decList decNum) (encList JsonValue.num) rt_list_num m

/-- Roundtrip for the nullable focused alert type. -/
theorem rt_nullable_alertType (o : Option AlertType) :
    decNullable decAlertType (encNullable encAlertType o) = some o :=
  rt_nullable decAlertType encAlertType rt_alertType encAlertType_ne_null o

/-- Modelled from the spec: serialization of `Alerts`. -/
def encAlerts (a : Alerts) : JsonValue :=
  .obj [("alertsLoaded", encLoadState a.alertsLoaded),
        ("numAlerts", .num a.numAlerts),
        ("alertsBreakdown", encAlertsBreakdown a.alertsBreakdown),
        ("alerts", encStrMap encAlertsByIndex a.alerts),
        ("executionIndices", encStrMap (encList .num) a.executionIndices),
        ("focusType", encNullable encAlertType a.focusType)]

/-- Modelled from the spec: deserialization of `Alerts`. -/
def decAlerts : JsonValue → Option Alerts
  | .obj [("alertsLoaded", j1), ("numAlerts", j2), ("alertsBreakdown", j3),
          ("alerts", j4), ("executionIndices", j5), ("focusType", j6)] =>
    (decLoadState j1).bind fun l =>
    (decNum j2).bind fun n =>
    (decAlertsBreakdown j3).bind fun bd =>
    (decStrMap decAlertsByIndex j4).bind fun al =>
    (decStrMap (decList decNum) j5).bind fun ei =>
    (decNullable decAlertType j6).map fun ft => ⟨l, n, bd, al, ei, ft⟩
  | _ => none

set_option maxHeartbeats 1600000 in
/-- Roundtrip for `Alerts`. -/
theorem rt_alerts : ∀ a, decAlerts (encAlerts a) = some a := by
  rintro ⟨l, n, bd, al, ei, ft⟩
  simp [encAlerts, decAlerts, rt_loadState, rt_num, rt_alertsBreakdown,
    rt_alertsMap, rt_executionIndicesMap, rt_nullable_alertType]

/-- Roundtrip for the index-keyed map of execution digests. -/
theorem rt_executionDigestsMap (m : List (Int × ExecutionDigest)) :
    decIntMap decExecutionDigest (encIntMap encExecutionDigest m) = some m :=
  rt_intMap decExecutionDigest encExecutionDigest rt_executionDigest m

/-- Roundtrip for the index-keyed map of execution detail records. -/
theorem rt_executionDataMap (m : List (Int × Execution)) :
    decIntMap decExecution (encIntMap encExecution m) = some m :=
  rt_intMap decExecution encExecution rt_execution m

/-- Modelled from the spec: serialization of `Executions`. -/
def encExecutions (x : Executions) : JsonValue :=
  .obj [("numExecutionsLoaded", encLoadState x.numExecutionsLoaded),
        ("executionDigestsLoaded",
          encExecutionDigestLoadState x.executionDigestsLoaded),
        ("pageSize", .num x.pageSize),
        ("displayCount", .num x.displayCount),
        ("scrollBeginIndex", .num x.scrollBeginIndex),
        ("focusIndex", encNullable .num x.focusIndex),
        ("executionDigests", encIntMap encExecutionDigest x.executionDigests),
        ("executionData", encIntMap encExecution x.executionData)]

/-- Modelled from the spec: deserialization of `Executions`. -/
def decExecutions : JsonValue → Option Executions
  | .obj [("numExecutionsLoaded", j1), ("executionDigestsLoaded", j2),
          ("pageSize", j3), ("displayCount", j4), ("scrollBeginIndex", j5),
          ("focusIndex", j6), ("executionDigests", j7),
          ("executionData", j8)] =>
    (decLoadState j1).bind fun l =>
    (decExecutionDigestLoadState j2).bind fun dl =>
    (decNum j3).bind fun ps =>
    (decNum j4).bind fun dc =>
    (decNum j5).bind fun sb =>
    (decNullable decNum j6).bind fun fi =>
    (decIntMap decExecutionDigest j7).bind fun ed =>
    (decIntMap decExecution j8).map fun xd =>
      ⟨l, dl, ps, dc, sb, fi, ed, xd⟩
  | _ => none

set_option maxHeartbeats 1600000 in
/-- Roundtrip for `Executions`. -/
theorem rt_executions : ∀ x, decExecutions (encExecutions x) = some x := by
  rintro ⟨l, dl, ps, dc, sb, fi, ed, xd⟩
  simp [encExecutions, decExecutions, rt_loadState,
    rt_executionDigestLoadState, rt_num, rt_nullable_num,
    rt_executionDigestsMap, rt_executionDataMap]

/-- Modelled from the spec: serialization of `RunState`. -/
def encRunState (r : RunState) : JsonValue :=
  .obj [("executions", encExecutions r.executions)]

/-- Modelled from the spec: deserialization of `RunState`. -/
def decRunState : JsonValue → Option RunState
  | .obj [("executions", j)] => (decExecutions j).map RunState.mk
  | _ => none

/-- Roundtrip for `RunState`. -/
theorem rt_runState : ∀ r, decRunState (encRunState r) = some r := by
  rintro ⟨x⟩
  simp [encRunState, decRunState, rt_executions]

/-- Modelled from the spec: serialization of `DebuggerState`. -/
def encDebuggerState (d : DebuggerState) : JsonValue :=
  .obj [("runs", encDebuggerRunListing d.runs),
        ("runsLoaded", encLoadState d.runsLoaded),
        ("activeRunId", encNullable .str d.activeRunId),
        ("alerts", encAlerts d.alerts),
        ("executions", encExecutions d.executions),
        ("stackFrames", encStackFramesById d.stackFrames)]

/-- Modelled from the spec: deserialization of `DebuggerState`. -/
def decDebuggerState : JsonValue → Option DebuggerState
  | .obj [("runs", j1), ("runsLoaded", j2), ("activeRunId", j3),
          ("alerts", j4), ("executions", j5), ("stackFrames", j6)] =>
    (decDebuggerRunListing j1).bind fun r =>
    (decLoadState j2).bind fun l =>
    (decNullable decStr j3).bind fun ar =>
    (decAlerts j4).bind fun al =>
    (decExecutions j5).bind fun x =>
    (decStackFramesById j6).map fun sf => ⟨r, l, ar, al, x, sf⟩
  | _ => none

set_option maxHeartbeats 1600000 in
/-- Roundtrip for `DebuggerState`. -/
theorem rt_debuggerState :
    ∀ d, decDebuggerState (encDebuggerState d) = some d := by
  rintro ⟨r, l, ar, al, x, sf⟩
  simp [encDebuggerState, decDebuggerState, rt_runListing, rt_loadState,
    rt_nullable_str, rt_alerts, rt_executions, rt_stackFramesById]

/-- Modelled from the spec: serialization of the top-level `State`, under the
fixed feature key. -/
def encState (s : State) : JsonValue :=
  .obj [(DEBUGGER_FEATURE_KEY, encDebuggerState s.debugger)]

/-- Modelled from the spec: deserialization of the top-level `State`. -/
def decState : JsonValue → Option State
  | .obj [("debugger", j)] => (decDebuggerState j).map State.mk
  | _ => none

/-- Roundtrip for `State`. -/
theorem rt_state : ∀ s, decState (encState s) = some s := by
  rintro ⟨d⟩
  simp [encState, decState, DEBUGGER_FEATURE_KEY, rt_debuggerState]

/-- Claim C9: serializing then deserializing any of the defined record shapes
yields the original value, field for field. -/
theorem serialization_roundtrip :
    (∀ v : DebuggerRunMetadata,
      decDebuggerRunMetadata (encDebuggerRunMetadata v) = some v) ∧
    (∀ v : DebuggerRunListing,
      decDebuggerRunListing (encDebuggerRunListing v) = some v) ∧
    (∀ v : StackFrame, decStackFrame (encStackFrame v) = some v) ∧
    (∀ v : StackFramesById,
      decStackFramesById (encStackFramesById v) = some v) ∧
    (∀ v : ExecutionDigest,
      decExecutionDigest (encExecutionDigest v) = some v) ∧
    (∀ v : Execution, decExecution (encExecution v) = some v) ∧
    (∀ v : Alert, decAlert (encAlert v) = some v) ∧
    (∀ v : InfNanAlert, decInfNanAlert (encInfNanAlert v) = some v) ∧
    (∀ v : ExecutionDigestLoadState,
      decExecutionDigestLoadState (encExecutionDigestLoadState v) = some v) ∧
    (∀ v : AlertsBreakdown,
      decAlertsBreakdown (encAlertsBreakdown v) = some v) ∧
    (∀ v : AlertsByIndex, decAlertsByIndex (encAlertsByIndex v) = some v) ∧
    (∀ v : Alerts, decAlerts (encAlerts v) = some v) ∧
    (∀ v : Executions, decExecutions (encExecutions v) = some v) ∧
    (∀ v : RunState, decRunState (encRunState v) = some v) ∧
    (∀ v : DebuggerState, decDebuggerState (encDebuggerState v) = some v) ∧
    (∀ v : State, decState (encState v) = some v) :=
  ⟨rt_runMetadata, rt_runListing, rt_stackFrame, rt_stackFramesById,
   rt_executionDigest, rt_execution, rt_alert, rt_infNanAlert,
   rt_executionDigestLoadState, rt_alertsBreakdown, rt_alertsByIndex,
   rt_alerts, rt_executions, rt_runState, rt_debuggerState, rt_state⟩
